import Mathlib

/-!
Shallow embedding of `EEGsegment.m` (directory `YH_integrative EEG features`),
the block segmenter of this repository, and proofs about its behaviour.

The MATLAB source, with its line numbers:

* line 16: `blockPoint = sampleRate*blockLength`
* line 17: `overPoint  = sampleRate*overlap`
* line 19: `channelN = size(data,1)`
* line 20: `pointN = size(data,2)`
* line 21: `blockN = floor((pointN-(blockPoint-overPoint))/overPoint)`
* line 24: `segData = zeros(channelN,blockPoint,blockN)`
* lines 26-28: `for b = 1:blockN, segData(:,:,b) = data(:,(b-1)*overPoint+1:(b-1)*overPoint+blockPoint)`
* line 30: `times = (0:blockN-1)*blockLength`

A multichannel signal is a list of channels, each channel a list of samples
(`size(data,2)` is the length of a channel).  Sample values are an arbitrary
type `α` because the segmenter only moves samples, never computes with them;
MATLAB's doubles are the instantiation `α := ℚ`.
-/

set_option maxRecDepth 100000

variable {α : Type}

/-- Segmented output.  `segData` lists the blocks in block-index order; each
block is a channel × within-block-sample rectangle, mirroring the MATLAB slice
`segData(:,:,b)`.  `times` is the time scale of line 30, in seconds. -/
structure SegResult (α : Type) where
  segData : List (List (List α))
  times : List ℚ
  deriving DecidableEq

/-- Line 21 of `EEGsegment.m`: `blockN = floor((pointN-(blockPoint-overPoint))/overPoint)`.
MATLAB divides reals and takes `floor`; for a positive denominator that is
exactly integer Euclidean division, which is what `/` on `Int` is. -/
def blockN (pointN blockPoint overPoint : Nat) : Int :=
  ((pointN : Int) - ((blockPoint : Int) - (overPoint : Int))) / (overPoint : Int)

/-- Lines 26-28 of `EEGsegment.m`, for the 0-based block index `b` (MATLAB's
`b+1`): `data(:,(b)*overPoint+1 : (b)*overPoint+blockPoint)` copies, for
each channel, `blockPoint` samples starting at 0-based offset `b*overPoint`. -/
def segBlock (data : List (List α)) (blockPoint overPoint b : Nat) : List (List α) :=
  data.map (fun ch => (ch.drop (b * overPoint)).take blockPoint)

/-- The body of `EEGsegment` once the sample counts `blockPoint` and `overPoint`
are fixed (lines 19-30).  `pointN` is `size(data,2)`, the channel length.

When `overPoint = 0`, MATLAB's `floor(../0)` at line 21 yields `Inf` (or `NaN`),
and line 24's `zeros(channelN,blockPoint,blockN)` then raises a runtime error,
so the call produces no result: modelled as `none`.

When `blockN ≤ 0`, MATLAB's `zeros` clamps the third dimension to `0`, the copy
loop `for b = 1:blockN` does not run, and `(0:blockN-1)` is empty, so the call
returns an empty result without error: modelled as `some` with zero blocks
(hence `Int.toNat` on `blockN`). -/
def EEGsegmentPts (data : List (List α)) (blockPoint overPoint : Nat) (blockLength : ℚ) :
    Option (SegResult α) :=
  if overPoint = 0 then none
  else
    some { segData := (List.range ((blockN (data.headD []).length blockPoint overPoint).toNat)).map
             (segBlock data blockPoint overPoint),
           times := (List.range ((blockN (data.headD []).length blockPoint overPoint).toNat)).map
             (fun b : Nat => (b : ℚ) * blockLength) }

/-- `EEGsegment(data,sampleRate,blockLength,overlap)`, lines 15-31: converts the
time parameters to sample counts (lines 16-17) and segments.  Parameters are
restricted to naturals: every claim is about integer Hz/seconds parameters, and
a non-integer `sampleRate*blockLength` makes MATLAB's `zeros` at line 24 fail
before any output exists. -/
def EEGsegment (data : List (List α)) (sampleRate blockLength overlap : Nat) :
    Option (SegResult α) :=
  EEGsegmentPts data (sampleRate * blockLength) (sampleRate * overlap) (blockLength : ℚ)

/-- One-channel test signal: 1000 samples whose value is their index. -/
def dataA : List (List Nat) := [List.range 1000]

/-- The spec's concrete scenario signal: 2 channels × 1000 samples, with
distinct recognisable values per channel. -/
def dataB : List (List Nat) := [List.range 1000, (List.range 1000).map (fun i => i + 1000)]

/-- One-channel signal of 100 samples (shorter than one block of 600). -/
def dataShort : List (List Nat) := [List.range 100]

/-- One-channel signal of 1200 samples. -/
def dataLong : List (List Nat) := [List.range 1200]

/-- Tiny one-channel signal of 6 samples, for concrete instantiations. -/
def dataW : List (List Nat) := [[10, 11, 12, 13, 14, 15]]

/-- The segmentation of `dataW` with `blockPoint = 3`, `overPoint = 1`,
`blockLength = 3`: `blockN = (6 - (3 - 1)) / 1 = 4` blocks at offsets
0, 1, 2, 3, and times `(0:3)*3`. -/
def segW : SegResult Nat :=
  { segData := [[[10, 11, 12]], [[11, 12, 13]], [[12, 13, 14]], [[13, 14, 15]]],
    times := [0, 3, 6, 9] }

/-! ### Helper lemmas -/

/-- Unfolding `EEGsegmentPts` when `overPoint ≠ 0` (the branch that returns). -/
lemma EEGsegmentPts_eq (data : List (List α)) (BP OP : Nat) (L : ℚ) (hOP : OP ≠ 0) :
    EEGsegmentPts data BP OP L =
      some ⟨(List.range ((blockN (data.headD []).length BP OP).toNat)).map (segBlock data BP OP),
            (List.range ((blockN (data.headD []).length BP OP).toNat)).map
              (fun b : Nat => (b : ℚ) * L)⟩ := by
  rw [EEGsegmentPts, if_neg hOP]

/-- The fields of a returned `SegResult`. -/
lemma segResult_fields {data : List (List α)} {BP OP : Nat} {L : ℚ} {r : SegResult α}
    (hOP : OP ≠ 0) (h : EEGsegmentPts data BP OP L = some r) :
    r.segData = (List.range ((blockN (data.headD []).length BP OP).toNat)).map
        (segBlock data BP OP) ∧
      r.times = (List.range ((blockN (data.headD []).length BP OP).toNat)).map
        (fun b : Nat => (b : ℚ) * L) := by
  have h2 := (EEGsegmentPts_eq data BP OP L hOP).symm.trans h
  injection h2 with h3
  exact ⟨congrArg SegResult.segData h3.symm, congrArg SegResult.times h3.symm⟩

/-- The number of returned blocks is `blockN`, clamped below at zero. -/
lemma segData_length {data : List (List α)} {BP OP : Nat} {L : ℚ} {r : SegResult α}
    (hOP : OP ≠ 0) (h : EEGsegmentPts data BP OP L = some r) :
    r.segData.length = (blockN (data.headD []).length BP OP).toNat := by
  rw [(segResult_fields hOP h).1, List.length_map, List.length_range]

/-- The number of time labels equals the number of blocks. -/
lemma times_length {data : List (List α)} {BP OP : Nat} {L : ℚ} {r : SegResult α}
    (hOP : OP ≠ 0) (h : EEGsegmentPts data BP OP L = some r) :
    r.times.length = (blockN (data.headD []).length BP OP).toNat := by
  rw [(segResult_fields hOP h).2, List.length_map, List.length_range]

/-- Block `b` of the output is the `segBlock` slice. -/
lemma segData_getD {data : List (List α)} {BP OP : Nat} {L : ℚ} {r : SegResult α} {b : Nat}
    (hOP : OP ≠ 0) (h : EEGsegmentPts data BP OP L = some r) (hb : b < r.segData.length) :
    r.segData.getD b [] = segBlock data BP OP b := by
  have hb2 : b < (blockN (data.headD []).length BP OP).toNat := by
    rw [segData_length hOP h] at hb; exact hb
  rw [(segResult_fields hOP h).1]
  rw [List.getD_eq_getElem?_getD, List.getElem?_map, List.getElem?_range hb2]
  rfl

/-- Channel `c` of block `b` is the `drop`/`take` slice of channel `c` of the
input. -/
lemma seg_block_row {data : List (List α)} {BP OP : Nat} {L : ℚ} {r : SegResult α} {b c : Nat}
    (hOP : OP ≠ 0) (h : EEGsegmentPts data BP OP L = some r) (hb : b < r.segData.length)
    (hc : c < data.length) :
    (r.segData.getD b []).getD c [] = ((data.getD c []).drop (b * OP)).take BP := by
  rw [segData_getD hOP h hb]
  rw [segBlock, List.getD_eq_getElem?_getD, List.getElem?_map,
    List.getElem?_eq_getElem hc, List.getD_eq_getElem?_getD,
    List.getElem?_eq_getElem hc]
  rfl

/-- Time label `b` of the output is `b * blockLength`. -/
lemma times_getD {data : List (List α)} {BP OP : Nat} {L : ℚ} {r : SegResult α} {b : Nat}
    (hOP : OP ≠ 0) (h : EEGsegmentPts data BP OP L = some r) (hb : b < r.times.length) :
    r.times.getD b 0 = (b : ℚ) * L := by
  have hb2 : b < (blockN (data.headD []).length BP OP).toNat := by
    rw [times_length hOP h] at hb; exact hb
  rw [(segResult_fields hOP h).2]
  rw [List.getD_eq_getElem?_getD, List.getElem?_map, List.getElem?_range hb2]
  rfl

/-- Every sample read by block `b` is in range: the last sample the MATLAB
slice of block `b` touches, `b*overPoint + blockPoint` (0-based, exclusive),
is at most `pointN`.  This is the floor-division property of line 21. -/
lemma blockN_index_bound {pointN BP OP b : Nat} (hOP : 0 < OP)
    (hb : b < (blockN pointN BP OP).toNat) : b * OP + BP ≤ pointN := by
  have hOPI : (0 : Int) < (OP : Int) := by exact_mod_cast hOP
  have hb1 : (b : Int) + 1 ≤ blockN pointN BP OP := by omega
  rw [blockN] at hb1
  have h2 : ((b : Int) + 1) * (OP : Int) ≤
      (pointN : Int) - ((BP : Int) - (OP : Int)) :=
    (Int.le_ediv_iff_mul_le hOPI).mp hb1
  have h3 : (b : Int) * (OP : Int) + (BP : Int) ≤ (pointN : Int) := by nlinarith
  exact_mod_cast h3

/-- `blockN` as a floor of the rational division MATLAB performs at line 21. -/
lemma blockN_eq_floor (pointN BP OP : Nat) :
    blockN pointN BP OP =
      ⌊((pointN : ℚ) - ((BP : ℚ) - (OP : ℚ))) / (OP : ℚ)⌋ := by
  rw [blockN]
  rw [show ((pointN : ℚ) - ((BP : ℚ) - (OP : ℚ)))
      = (((pointN : Int) - ((BP : Int) - (OP : Int)) : Int) : ℚ) by push_cast; ring]
  exact (Rat.floor_intCast_div_natCast _ _).symm

/-- Concrete evaluation of the segmenter on `dataW`. -/
lemma EEGsegmentPts_dataW : EEGsegmentPts dataW 3 1 3 = some segW := by
  rw [EEGsegmentPts_eq dataW 3 1 3 (by decide),
    show (blockN (dataW.headD []).length 3 1).toNat = 4 from rfl]
  simp only [segW, Option.some.injEq, SegResult.mk.injEq]
  refine ⟨by rfl, ?_⟩
  norm_num [List.range_succ]
/-! ### Claims -/

/-- C1, refutation of the claim as stated: a 1-channel signal of 1000 samples
at 100 Hz with blockLength 6 s and overlap 1 s has blockPoints = 600,
overlapPoints = 100, stride = 500.  The claimed count
`floor((pointN - stride) / stride) = (1000 - 500) / 500 = 1`, but the
segmenter returns 5 blocks. -/
theorem blockCount_stride_formula_refuted :
    (EEGsegment dataA 100 6 1).map (fun r => r.segData.length) = some 5 ∧
      (1000 - (600 - 100)) / (600 - 100) ≠ 5 :=
  ⟨rfl, by decide⟩

/-- C1, amended: for positive `overPoint < blockPoint`, the number of blocks
returned by the segmenter equals `floor((pointN - stride) / overlapPoints)`
(the denominator is the overlap sample count, not the stride), clamped below
at zero. -/
theorem blockCount_eq_floor_div_overPoint {data : List (List α)} {BP OP : Nat}
    {L : ℚ} {r : SegResult α} (hOP : 0 < OP) (_hlt : OP < BP)
    (h : EEGsegmentPts data BP OP L = some r) :
    (r.segData.length : Int) =
      max ⌊(((data.headD []).length : ℚ) - ((BP : ℚ) - (OP : ℚ))) / (OP : ℚ)⌋ 0 := by
  rw [segData_length (Nat.pos_iff_ne_zero.mp hOP) h, Int.toNat_eq_max, blockN_eq_floor]

/-- Witness for C1's amended theorem at `dataW`, `blockPoint = 3`,
`overPoint = 1`. -/
theorem blockCount_eq_floor_div_overPoint_witness :
    (segW.segData.length : Int) =
      max ⌊(((dataW.headD []).length : ℚ) - (((3 : ℕ) : ℚ) - ((1 : ℕ) : ℚ))) / ((1 : ℕ) : ℚ)⌋ 0 :=
  blockCount_eq_floor_div_overPoint (by decide) (by decide) EEGsegmentPts_dataW

/-- C2, refutation of the claim as stated: in the same setting as C1's
refutation, output block 1 starts at input sample 1·overPoint = 100, not at
1·stride = 500, so re-slicing the signal at offset `b·stride` does not
reproduce the segmenter's block. -/
theorem block_at_stride_offset_refuted :
    (EEGsegment dataA 100 6 1).map (fun r => (r.segData.getD 1 []).getD 0 []) ≠
      some (((dataA.getD 0 []).drop (1 * (600 - 100))).take 600) := by
  decide

/-- C2, amended: for every returned block `b`, channel `c` and within-block
index `i < blockPoint`, sample `i` of the block is input sample
`b·overPoint + i` — the blocks advance by `overPoint`, not by the stride. -/
theorem block_samples_at_overlap_offset {data : List (List α)} {BP OP : Nat} {L : ℚ}
    {r : SegResult α} {b c i : Nat} (hOP : 0 < OP) (_hlt : OP < BP)
    (h : EEGsegmentPts data BP OP L = some r) (hb : b < r.segData.length)
    (hc : c < data.length) (hi : i < BP) :
    ((r.segData.getD b []).getD c [])[i]? = (data.getD c [])[b * OP + i]? := by
  rw [seg_block_row (Nat.pos_iff_ne_zero.mp hOP) h hb hc,
    List.getElem?_take_of_lt hi, List.getElem?_drop]

/-- Witness for C2's amended theorem: sample 0 of block 1 of `dataW`'s
segmentation is input sample `1·1 + 0`. -/
theorem block_samples_at_overlap_offset_witness :
    ((segW.segData.getD 1 []).getD 0 [])[0]? = (dataW.getD 0 [])[1 * 1 + 0]? :=
  block_samples_at_overlap_offset (by decide) (by decide) EEGsegmentPts_dataW
    (by decide) (by decide) (by decide)

/-- C3: line 21 computes the block count as
`floor((pointN - (blockPoint - overPoint)) / overPoint)` — dividing by the
overlap sample count, not the stride — and line 30 labels block `b` (0-based)
with start time `b × blockLength`, the nominal block length. -/
theorem blockN_by_overPoint_times_by_blockLength {data : List (List α)}
    {BP OP : Nat} {L : ℚ} {r : SegResult α} (hOP : 0 < OP)
    (hlen : (BP : Int) - (OP : Int) ≤ (((data.headD []).length : Nat) : Int))
    (h : EEGsegmentPts data BP OP L = some r) :
    (r.segData.length : Int) =
        ⌊(((data.headD []).length : ℚ) - ((BP : ℚ) - (OP : ℚ))) / (OP : ℚ)⌋ ∧
      ∀ b, b < r.times.length → r.times.getD b 0 = (b : ℚ) * L := by
  constructor
  · rw [segData_length (Nat.pos_iff_ne_zero.mp hOP) h, ← blockN_eq_floor]
    rw [blockN]
    exact Int.toNat_of_nonneg (Int.ediv_nonneg (by omega) (by positivity))
  · intro b hb
    exact times_getD (Nat.pos_iff_ne_zero.mp hOP) h hb

/-- Witness for C3 at `dataW`, `blockPoint = 3`, `overPoint = 1`,
`blockLength = 3`. -/
theorem blockN_by_overPoint_times_by_blockLength_witness :
    ((segW.segData.length : Int) =
        ⌊(((dataW.headD []).length : ℚ) - (((3 : ℕ) : ℚ) - ((1 : ℕ) : ℚ))) / ((1 : ℕ) : ℚ)⌋ ∧
      ∀ b, b < segW.times.length → segW.times.getD b 0 = (b : ℚ) * 3) :=
  blockN_by_overPoint_times_by_blockLength (by decide) (by decide) EEGsegmentPts_dataW

/-- C4: the spec's concrete scenario.  2 channels × 1000 samples at 100 Hz,
blockLength 6 s (600 points), overlap 3 s (300 points): exactly 2 blocks,
block 0 = samples [0,600) and block 1 = samples [300,900) of every channel,
start times [0, 6].  (Here overPoint = 300 happens to equal the stride, which
is why the claimed slices match the code.) -/
theorem concrete_two_channel_scenario :
    EEGsegment dataB 100 6 3 =
      some { segData := [dataB.map (fun ch => ch.take 600),
                         dataB.map (fun ch => (ch.drop 300).take 600)],
             times := [0, 6] } := by
  rw [show EEGsegment dataB 100 6 3 = EEGsegmentPts dataB 600 300 6 from rfl,
    EEGsegmentPts_eq dataB 600 300 6 (by decide),
    show (blockN (dataB.headD []).length 600 300).toNat = 2 from rfl]
  simp only [Option.some.injEq, SegResult.mk.injEq]
  refine ⟨by rfl, ?_⟩
  norm_num [List.range_succ]

/-- C5, refutation of the claim as stated: with overlap (6 s) equal to
blockLength (6 s) — overPoint = blockPoint = 600 — the segmenter does not
fail with a validation error; it returns a result with one block. -/
theorem overlap_eq_blockLength_returns_result :
    (EEGsegment dataA 100 6 6).map (fun r => r.segData.length) = some 1 := rfl

/-- C5, amended: the source performs no parameter validation.  Whenever the
overlap (in seconds) is at least the block length and both are positive, the
segmenter still returns a result; no `InvalidParameters` error exists.  (The
only failing inputs are those with `overPoint = 0`, which die with a generic
runtime error at the `zeros` call.) -/
theorem no_validation_overlap_ge_blockLength {data : List (List α)}
    {sampleRate blockLength overlap : Nat} (hr : 0 < sampleRate)
    (hb : 0 < blockLength) (hov : blockLength ≤ overlap) :
    (EEGsegment data sampleRate blockLength overlap).isSome = true := by
  have hOP : sampleRate * overlap ≠ 0 := Nat.mul_ne_zero (by omega) (by omega)
  rw [EEGsegment, EEGsegmentPts_eq _ _ _ _ hOP]
  rfl

/-- Witness for C5's amended theorem: overlap 6 s = blockLength 6 s still
returns a result. -/
theorem no_validation_overlap_ge_blockLength_witness :
    (EEGsegment dataA 100 6 6).isSome = true :=
  no_validation_overlap_ge_blockLength (by decide) (by decide) (by decide)

/-- C6, refutation of the claim as stated: 100 samples with blockPoints = 600
(blockN computes to −1): the segmenter does not fail; it returns a degenerate
empty output with no blocks and no times. -/
theorem short_signal_returns_empty :
    EEGsegment dataShort 100 6 3 = some { segData := [], times := [] } := rfl

/-- C6, amended: whenever the signal is shorter than one block (so the
computed block count is 0 or negative), the segmenter returns an empty
output — MATLAB's `zeros` clamps the negative dimension to 0 and the copy
loop never runs — rather than failing with `InsufficientSignalLength`. -/
theorem short_signal_empty_output {data : List (List α)} {BP OP : Nat} {L : ℚ}
    (hOP : 0 < OP) (hshort : (data.headD []).length < BP) :
    EEGsegmentPts data BP OP L = some { segData := [], times := [] } := by
  have hOPZ : OP ≠ 0 := Nat.pos_iff_ne_zero.mp hOP
  rw [EEGsegmentPts_eq data BP OP L hOPZ]
  have hq : (blockN (data.headD []).length BP OP).toNat = 0 := by
    apply Int.toNat_of_nonpos
    rw [blockN]
    have h1 : ((data.headD []).length : Int) - ((BP : Int) - (OP : Int)) <
        1 * (OP : Int) := by omega
    have h2 := (Int.ediv_lt_iff_lt_mul (by exact_mod_cast hOP)).mpr h1
    omega
  rw [hq]
  rfl

/-- Witness for C6's amended theorem: 100 samples, blockPoint 600. -/
theorem short_signal_empty_output_witness :
    EEGsegmentPts dataShort 600 300 (6 : ℚ) = some { segData := [], times := [] } :=
  short_signal_empty_output (by decide) (by decide)

/-- C7, refutation of the claim as stated: overlap 0 s on a 1200-sample
signal at 100 Hz (the claim promises two contiguous, non-overlapping
600-point blocks) instead makes the segmenter fail: overPoint = 0 and line 21
divides by zero, so no result is produced. -/
theorem overlap_zero_errors_concrete :
    EEGsegment dataLong 100 6 0 = none := rfl

/-- C7, amended: overlap = 0 always fails — overPoint = 0 makes line 21
divide by zero and the `zeros` call raise — so the segmenter never produces
the non-overlapping contiguous segmentation. -/
theorem overlap_zero_always_fails (data : List (List α)) (sampleRate blockLength : Nat) :
    EEGsegment data sampleRate blockLength 0 = none := by
  rw [EEGsegment, Nat.mul_zero, EEGsegmentPts, if_pos rfl]

/-- C8: the returned start-times are strictly increasing and consecutive
start-times differ by exactly blockLength. -/
theorem times_strictly_increasing_and_spaced {data : List (List α)} {BP OP : Nat}
    {L : ℚ} {r : SegResult α} {i : Nat} (hOP : 0 < OP) (hL : 0 < L)
    (h : EEGsegmentPts data BP OP L = some r) (hi : i + 1 < r.times.length) :
    r.times.getD i 0 < r.times.getD (i + 1) 0 ∧
      r.times.getD (i + 1) 0 - r.times.getD i 0 = L := by
  have hOPZ : OP ≠ 0 := Nat.pos_iff_ne_zero.mp hOP
  rw [times_getD hOPZ h hi, times_getD hOPZ h (by omega)]
  constructor
  · push_cast
    nlinarith
  · push_cast
    ring

/-- Witness for C8 at `dataW` (times [0, 3, 6, 9], blockLength 3). -/
theorem times_strictly_increasing_and_spaced_witness :
    segW.times.getD 0 0 < segW.times.getD (0 + 1) 0 ∧
      segW.times.getD (0 + 1) 0 - segW.times.getD 0 0 = (3 : ℚ) :=
  times_strictly_increasing_and_spaced (by decide) (by norm_num) EEGsegmentPts_dataW
    (by decide)

/-- C9: when blockPoint and overPoint are positive and a block fits in the
signal, every sample index the segmenter reads is within bounds: every
returned block index b satisfies b·overPoint + blockPoint ≤ pointN, so the
MATLAB slice `data(:,b*overPoint+1 : b*overPoint+blockPoint)` never reaches
past the last sample. -/
theorem segment_reads_within_bounds {data : List (List α)} {BP OP : Nat} {L : ℚ}
    {r : SegResult α} {b : Nat} (_hBP : 0 < BP) (hOP : 0 < OP)
    (_hfit : BP ≤ (data.headD []).length) (h : EEGsegmentPts data BP OP L = some r)
    (hb : b < r.segData.length) :
    b * OP + BP ≤ (data.headD []).length := by
  apply blockN_index_bound hOP
  rwa [segData_length (Nat.pos_iff_ne_zero.mp hOP) h] at hb

/-- Witness for C9: the last block of `dataW`'s segmentation (b = 3) reads up
to sample 3·1 + 3 = 6 = pointN. -/
theorem segment_reads_within_bounds_witness :
    3 * 1 + 3 ≤ (dataW.headD []).length :=
  segment_reads_within_bounds (by decide) (by decide) (by decide) EEGsegmentPts_dataW
    (by decide)

/-- C10: neighbouring blocks share blockPoint − overPoint samples, not
overPoint: for every channel, the last blockPoint − overPoint samples of
block b equal the first blockPoint − overPoint samples of block b + 1. -/
theorem consecutive_blocks_share_stride_samples {data : List (List α)} {BP OP : Nat}
    {L : ℚ} {r : SegResult α} {b c : Nat} (hOP : 0 < OP) (_hlt : OP < BP)
    (h : EEGsegmentPts data BP OP L = some r) (hb : b + 1 < r.segData.length)
    (hc : c < data.length) :
    ((r.segData.getD b []).getD c []).drop OP =
      ((r.segData.getD (b + 1) []).getD c []).take (BP - OP) := by
  have hOPZ : OP ≠ 0 := Nat.pos_iff_ne_zero.mp hOP
  rw [seg_block_row hOPZ h (by omega) hc, seg_block_row hOPZ h hb hc]
  rw [List.drop_take, List.drop_drop, List.take_take]
  rw [Nat.min_eq_left (Nat.sub_le BP OP)]
  rw [show b * OP + OP = (b + 1) * OP by ring]

/-- Witness for C10 at `dataW`: block 0 = [10,11,12], block 1 = [11,12,13];
the last two samples of block 0 equal the first two of block 1. -/
theorem consecutive_blocks_share_stride_samples_witness :
    ((segW.segData.getD 0 []).getD 0 []).drop 1 =
      ((segW.segData.getD (0 + 1) []).getD 0 []).take (3 - 1) :=
  consecutive_blocks_share_stride_samples (by decide) (by decide) EEGsegmentPts_dataW
    (by decide) (by decide)
